import Mathlib

/-!
Verification development for the medical-agent-extractor pipeline.

Strings are modelled as lists of characters (`Str`), optional Python string
attributes as `Option Str` with Python truthiness (`None` and the empty
string are falsy).  Each definition is a shallow embedding of the Python
function named in its doc comment.
-/

namespace MedExtract

/-- Python strings, modelled as lists of characters (ASCII fragment). -/
abbrev Str := List Char

/-- Characters removed by Python `str.strip()` with no argument. -/
def isPyWhitespace (c : Char) : Bool :=
  c = ' ' || c = Char.ofNat 9 || c = Char.ofNat 10 || c = Char.ofNat 13 ||
  c = Char.ofNat 11 || c = Char.ofNat 12

/-- Python `s.strip()`: drop leading and trailing whitespace. -/
def pyStrip (s : Str) : Str :=
  ((s.dropWhile isPyWhitespace).reverse.dropWhile isPyWhitespace).reverse

/-- Python `s.replace(c, two-quote empty)`: remove every occurrence of the character. -/
def removeAll (c : Char) (s : Str) : Str :=
  s.filter (fun a => a ≠ c)

/-- Barcode cleaning from `check_gtin_in_database.py` line 379:
`bar_code.strip().replace(hyphen, empty).replace(space, empty)`. -/
def cleanCode (s : Str) : Str :=
  removeAll ' ' (removeAll '-' (pyStrip s))

/-- Python `s.isdigit()` on the ASCII fragment: nonempty and all digits. -/
def pyIsDigit (s : Str) : Bool :=
  !s.isEmpty && s.all (fun c => c.isDigit)

/-- The length test `len(clean_code) in [8, 12, 13, 14]` from line 380. -/
def validGtinLength (n : Nat) : Bool :=
  n == 8 || n == 12 || n == 13 || n == 14

/-- Python truthiness of an `Optional[str]` attribute: `None` and the empty
string are falsy. -/
def isFilled : Option Str → Bool
  | none => false
  | some s => !s.isEmpty

/-- Gate of `check_gtin_in_database_v3` (lines 378-380): there is a truthy
`bar_code`, and the cleaned code is all digits with a standard GTIN length. -/
def gtinEligible : Option Str → Bool
  | some bc => !bc.isEmpty && (pyIsDigit (cleanCode bc) && validGtinLength (cleanCode bc).length)
  | none => false

/-- The processed-medication record (the `MedicationDetails` field set of
`medication_extraction_state.py`, which is the attribute interface the
enrichment nodes read and write).  Every field is an optional string. -/
structure MedRecord where
  bar_code : Option Str
  medication_name : Option Str
  description : Option Str
  common_denomination : Option Str
  concentration : Option Str
  form : Option Str
  form_simple : Option Str
  brand_name : Option Str
  country : Option Str
  presentation : Option Str
  fractions : Option Str
  product_type : Option Str
  lot_number : Option Str
  expiration_date : Option Str
deriving DecidableEq

/-- A row of `registroclinico.ItemsGtin` as returned by `query_gtin`
(a pymssql dict; `get` on a missing key yields `None`).  `fractions` holds
the value after the `str(...)` conversion applied at line 407.  The
`lot_number` and `expiration_date` slots model possible extra keys of the
dict; the enricher never reads them. -/
structure DbRow where
  name : Option Str
  common_denomination : Option Str
  concentration : Option Str
  form : Option Str
  form_simple : Option Str
  brand_name : Option Str
  country : Option Str
  presentation : Option Str
  fractions : Option Str
  product_type : Option Str
  lot_number : Option Str
  expiration_date : Option Str
deriving DecidableEq

/-- The enrichment block of `check_gtin_in_database_v3` (lines 389-411):
each field is assigned the registry value whenever that registry value is
truthy, regardless of the current record value; `fractions` is guarded by
`is not None`; `lot_number` and `expiration_date` are never assigned. -/
def applyDbEnrich (r : MedRecord) (row : DbRow) : MedRecord :=
  { r with
    medication_name := if isFilled row.name then row.name else r.medication_name
    common_denomination := if isFilled row.common_denomination then row.common_denomination else r.common_denomination
    concentration := if isFilled row.concentration then row.concentration else r.concentration
    form := if isFilled row.form then row.form else r.form
    form_simple := if isFilled row.form_simple then row.form_simple else r.form_simple
    brand_name := if isFilled row.brand_name then row.brand_name else r.brand_name
    country := if isFilled row.country then row.country else r.country
    presentation := if isFilled row.presentation then row.presentation else r.presentation
    fractions := if row.fractions.isSome then row.fractions else r.fractions
    product_type := if isFilled row.product_type then row.product_type else r.product_type }

/-- Return value of the `check_gtin_in_database_v3` workflow node
(lines 428-432). -/
structure GtinNodeResult where
  processed_medications : MedRecord
  database_info : Option DbRow
  gtin_found : Bool
deriving DecidableEq

/-- The `check_gtin_in_database_v3` node (lines 345-432).  `qf` is the
`GtinService.query_gtin` interface: cleaned code to optional registry row.
The nested truthiness and format checks of lines 378-380 are exactly
`gtinEligible`; on every ineligible or miss path the record is returned
unchanged with `database_info = None` and `gtin_found = False`. -/
def checkGtinV3 (qf : Str → Option DbRow) (r : MedRecord) : GtinNodeResult :=
  if gtinEligible r.bar_code then
    match qf (cleanCode (r.bar_code.getD [])) with
    | some row => ⟨applyDbEnrich r row, some row, true⟩
    | none => ⟨r, none, false⟩
  else ⟨r, none, false⟩

/-- A candidate returned by the vector service
(`medication_vector_service.py` lines 341-364): the Qdrant payload fields
read by the workflow node, plus the similarity score (modelled in `ℚ`). -/
structure Candidate where
  gtin_code : Option Str
  medication_name : Option Str
  common_denomination : Option Str
  concentration : Option Str
  form : Option Str
  form_simple : Option Str
  brand_name : Option Str
  country : Option Str
  presentation : Option Str
  product_type : Option Str
  fractions : Option Str
  similarity_score : ℚ
deriving DecidableEq

/-- Confidence threshold of `medication_search_workflow.py` line 67: the
rational `0.7`, given as an explicit reduced fraction so that comparisons
evaluate. -/
def CONFIDENCE_THRESHOLD : ℚ := ⟨7, 10, by decide, by decide⟩

/-- The enrichment block of `search_medications_semantic`
(`medication_search_workflow.py` lines 70-96): each field is assigned the
candidate value only when the record field is falsy and the candidate
value is truthy. -/
def applySemanticEnrich (r : MedRecord) (best : Candidate) : MedRecord :=
  { r with
    common_denomination := if !isFilled r.common_denomination && isFilled best.common_denomination then best.common_denomination else r.common_denomination
    concentration := if !isFilled r.concentration && isFilled best.concentration then best.concentration else r.concentration
    form := if !isFilled r.form && isFilled best.form then best.form else r.form
    form_simple := if !isFilled r.form_simple && isFilled best.form_simple then best.form_simple else r.form_simple
    brand_name := if !isFilled r.brand_name && isFilled best.brand_name then best.brand_name else r.brand_name
    country := if !isFilled r.country && isFilled best.country then best.country else r.country
    presentation := if !isFilled r.presentation && isFilled best.presentation then best.presentation else r.presentation
    product_type := if !isFilled r.product_type && isFilled best.product_type then best.product_type else r.product_type
    fractions := if !isFilled r.fractions && isFilled best.fractions then best.fractions else r.fractions }

/-- Failure of the workflow node (the uncaught `IndexError` raised by
`semantic_results[0]` on an empty list, line 62). -/
inductive SemErr
  | indexError
deriving DecidableEq

/-- Return value of the `search_medications_semantic` workflow node
(lines 98-103). -/
structure SemNodeResult where
  processed_medications : MedRecord
  semantic_results : List Candidate
  semantic_best_match : Candidate
  enrichment_applied : Bool
deriving DecidableEq

/-- The query string built at lines 30-53: the truthy values among
`medication_name`, `common_denomination`, `concentration`, `form_simple`,
`brand_name`, joined with single spaces. -/
def searchQuery (r : MedRecord) : Str :=
  ((([r.medication_name, r.common_denomination, r.concentration,
      r.form_simple, r.brand_name].filter isFilled).map
    (fun o => o.getD [])).intersperse [' ']).flatten

/-- The `search_medications_semantic` workflow node
(`medication_search_workflow.py` lines 11-103), applied to the candidate
list the vector service returned.  Line 62 indexes `semantic_results[0]`
with no emptiness guard, so an empty list raises. -/
def searchMedicationsSemanticNode (r : MedRecord) (semanticResults : List Candidate) :
    Except SemErr SemNodeResult :=
  match semanticResults with
  | [] => Except.error SemErr.indexError
  | best :: _ =>
    Except.ok
      { processed_medications :=
          if CONFIDENCE_THRESHOLD < best.similarity_score then applySemanticEnrich r best else r
        semantic_results := semanticResults
        semantic_best_match := best
        enrichment_applied := decide (CONFIDENCE_THRESHOLD < best.similarity_score) }

/-- Failure modes of the embedding service / vector index named by the
claims. -/
inductive VecErr
  | embeddingFailure
  | indexFailure
deriving DecidableEq

/-- `MedicationVectorService.search_medications_semantic`
(`medication_vector_service.py` lines 315-371): the whole body is wrapped
in try/except and every exception is absorbed into an empty result list. -/
def vectorServiceSearch (backendResult : Except VecErr (List Candidate)) : List Candidate :=
  match backendResult with
  | Except.error _ => []
  | Except.ok cands => cands

/-- The semantic stage end to end: the node builds the query, calls the
service on it, and processes the returned candidate list. -/
def semanticStage (r : MedRecord) (backend : Str → Except VecErr (List Candidate)) :
    Except SemErr SemNodeResult :=
  searchMedicationsSemanticNode r (vectorServiceSearch (backend (searchQuery r)))

instance {ε α : Type} [DecidableEq ε] [DecidableEq α] : DecidableEq (Except ε α) := fun x y =>
  match x, y with
  | Except.ok a, Except.ok b =>
    if h : a = b then isTrue (by rw [h]) else isFalse (by intro hh; cases hh; exact h rfl)
  | Except.error a, Except.error b =>
    if h : a = b then isTrue (by rw [h]) else isFalse (by intro hh; cases hh; exact h rfl)
  | Except.ok _, Except.error _ => isFalse (by intro hh; cases hh)
  | Except.error _, Except.ok _ => isFalse (by intro hh; cases hh)

/-- A database exception message (the `str(e)` the code logs). -/
structure QErr where
  msg : Str
deriving DecidableEq

/-- `MAX_RETRIES` from `check_gtin_in_database.py` line 18. -/
def MAX_RETRIES : Nat := 3

/-- `RETRY_DELAY` (seconds) from `check_gtin_in_database.py` line 19. -/
def RETRY_DELAY : Nat := 2

/-- Outcome of `GtinDatabaseConnection.execute_query`: the returned rows or
the exception finally raised, together with the sequence of
`time.sleep(RETRY_DELAY)` calls performed between attempts. -/
structure ExecOutcome where
  result : Except QErr (List DbRow)
  sleeps : List Nat
deriving DecidableEq

/-- The retry loop of `execute_query` (lines 146-194).  `attempts k` is the
outcome of the attempt made with `retry_count = k` (each attempt connects,
reconnecting on retries, and runs the SELECT).  The loop runs while
`retry_count < MAX_RETRIES`; a failing attempt increments the counter,
sleeps `RETRY_DELAY` and retries if the bound is not reached, and re-raises
the last exception otherwise.  `fuel` is `MAX_RETRIES - retry_count`,
making the recursion structural; the fuel-exhausted branch is unreachable
from `executeQuery`. -/
def execLoop (attempts : Nat → Except QErr (List DbRow)) :
    Nat → Nat → ExecOutcome
  | _, 0 => ⟨Except.error ⟨[]⟩, []⟩
  | retryCount, fuel + 1 =>
    match attempts retryCount with
    | Except.ok rows => ⟨Except.ok rows, []⟩
    | Except.error e =>
      if retryCount + 1 < MAX_RETRIES then
        let rest := execLoop attempts (retryCount + 1) fuel
        ⟨rest.result, RETRY_DELAY :: rest.sleeps⟩
      else ⟨Except.error e, []⟩

/-- `execute_query` (lines 146-194): the loop entered with
`retry_count = 0`. -/
def executeQuery (attempts : Nat → Except QErr (List DbRow)) : ExecOutcome :=
  execLoop attempts 0 MAX_RETRIES

/-- `GtinService.query_gtin` (lines 235-288): runs the SELECT through
`execute_query` inside try/except; every exception is absorbed into `None`,
an empty result list yields `None`, and otherwise the first row is
returned. -/
def queryGtin (attempts : Nat → Except QErr (List DbRow)) : Option DbRow :=
  match (executeQuery attempts).result with
  | Except.error _ => none
  | Except.ok [] => none
  | Except.ok (row :: _) => some row

/-- Nodes of the OCRGatewayGraph (`ocr_gateway_graph.py`, `add_nodes` and
`add_edges`), plus START and END. -/
inductive NodeId
  | startN
  | prepareOcrTasks
  | extractSingle
  | processMedicationData
  | checkGtin
  | endN
deriving DecidableEq

/-- The two routing keys of `conditional_edges` (lines 148-159). -/
inductive RouteKey
  | extract_single_image_text_node
  | process_directly
deriving DecidableEq

/-- A `Send` object built by `distribute_image_processing` (lines 199-207):
one per file, carrying the file and the batch OCR provider. -/
structure SendTask where
  filename : Str
  ocr_provider : Str
deriving DecidableEq

/-- `distribute_image_processing` (lines 186-210): with no files it returns
the routing key string, otherwise one `Send` per file targeting the
extraction node. -/
def distributeImageProcessing (files : List Str) (provider : Str) :
    RouteKey ⊕ List SendTask :=
  if files.isEmpty then Sum.inl RouteKey.process_directly
  else Sum.inr (files.map (fun f => ⟨f, provider⟩))

/-- The mapping of `conditional_edges` (lines 150-159): `Send` objects go
to the extraction node; the `process_directly` key goes to
`process_medication_data`. -/
def conditionalEdgeMap : RouteKey → NodeId
  | RouteKey.extract_single_image_text_node => NodeId.extractSingle
  | RouteKey.process_directly => NodeId.processMedicationData

/-- The linear tail of `add_edges` (lines 135-145) starting from a node:
`extract_single_image_text_node → process_medication_data → check_gtin →
END`. -/
def seqFrom : NodeId → List NodeId
  | NodeId.startN => [NodeId.startN]
  | NodeId.prepareOcrTasks => [NodeId.prepareOcrTasks]
  | NodeId.extractSingle =>
    [NodeId.extractSingle, NodeId.processMedicationData, NodeId.checkGtin, NodeId.endN]
  | NodeId.processMedicationData =>
    [NodeId.processMedicationData, NodeId.checkGtin, NodeId.endN]
  | NodeId.checkGtin => [NodeId.checkGtin, NodeId.endN]
  | NodeId.endN => [NodeId.endN]

/-- Outcome of one single-image OCR task, as distinguished by
`extract_single_image_text` (`ocr_gateway_extractor.py` lines 115-165):
the requested provider may be unavailable (lines 136-142), the provider
call may raise (lines 155-157), or text is extracted. -/
inductive OcrOutcome
  | providerUnavailable
  | exceptionDuring (msg : Str)
  | extracted (text : Str)

/-- The dict a single-image task returns (lines 138-142 and 161-165):
singleton lists for the three accumulator keys. -/
structure TaskUpdate where
  extracted_texts : List Str
  file_names : List Str
  ocr_provider_used : List Str
deriving DecidableEq

/-- The text `Error processing file {filename}: {msg}` of line 157. -/
def procErrText (fname msg : Str) : Str :=
  ['E', 'r', 'r', 'o', 'r', ' ', 'p', 'r', 'o', 'c', 'e', 's', 's', 'i', 'n', 'g', ' ',
   'f', 'i', 'l', 'e', ' '] ++ fname ++ [':', ' '] ++ msg

/-- The text `Error: OCR Provider {name} not available.` of line 139. -/
def provErrText (provider : Str) : Str :=
  ['E', 'r', 'r', 'o', 'r', ':', ' ', 'O', 'C', 'R', ' ', 'P', 'r', 'o', 'v', 'i', 'd', 'e', 'r', ' '] ++
  provider ++ [' ', 'n', 'o', 't', ' ', 'a', 'v', 'a', 'i', 'l', 'a', 'b', 'l', 'e', '.']

/-- The word `error` recorded as provider on the unavailable path
(line 141). -/
def errorWord : Str := ['e', 'r', 'r', 'o', 'r']

/-- `extract_single_image_text` (lines 115-165): every path, including both
failure paths, returns a `TaskUpdate` with the three singleton lists — the
function never raises. -/
def extractSingleImageText (fname provider : Str) : OcrOutcome → TaskUpdate
  | OcrOutcome.providerUnavailable => ⟨[provErrText provider], [fname], [errorWord]⟩
  | OcrOutcome.exceptionDuring msg => ⟨[procErrText fname msg], [fname], [provider]⟩
  | OcrOutcome.extracted t => ⟨[t], [fname], [provider]⟩

/-- The channels LangGraph builds from `MedicationExtractionState`
(`medication_extraction_state.py` lines 53-71) that the per-image tasks
write: `extracted_texts` is declared `Annotated[List[str], operator.add]`
(a reducer channel), `file_names` is declared plain `List[str]` (a
last-value channel).  The schema declares no `ocr_provider_used` key at
all, so task writes to it have no channel. -/
structure ChannelState where
  extracted_texts : List Str
  file_names : List Str
deriving DecidableEq

/-- A last-value channel rejects two writes in the same superstep. -/
inductive MergeErr
  | invalidUpdateFileNames
deriving DecidableEq

/-- Merging the updates of one parallel superstep into the channel state:
the `operator.add` channel concatenates every write; the plain
`file_names` channel takes the single write and is an invalid update when
the superstep produced more than one; `ocr_provider_used` has no channel
to receive its writes. -/
def mergeTaskUpdates (s : ChannelState) (ups : List TaskUpdate) :
    Except MergeErr ChannelState :=
  let texts := s.extracted_texts ++ (ups.map (fun u => u.extracted_texts)).flatten
  match ups with
  | [] => Except.ok ⟨texts, s.file_names⟩
  | [u] => Except.ok ⟨texts, u.file_names⟩
  | _ => Except.error MergeErr.invalidUpdateFileNames

/-- One batch execution: the sequence of graph nodes actually entered, and
whether the run aborted at the fan-in channel merge instead of
completing. -/
structure BatchRun where
  trace : List NodeId
  aborted : Option MergeErr
deriving DecidableEq

/-- One traversal of the OCRGatewayGraph.  START enters
`prepare_ocr_tasks`; the conditional router either jumps to the node
mapped from the returned key (the zero-image path, which has no parallel
superstep), or fans out one extraction node per `Send` (`outcomes k` being
the OCR outcome of task `k`).  The fan-in then merges the task updates
through the declared state channels: if the merge is an invalid update the
run aborts there, before `process_medication_data`; otherwise it continues
`process_medication_data → check_gtin → END`. -/
def runBatch (files : List Str) (provider : Str) (outcomes : Nat → OcrOutcome) : BatchRun :=
  match distributeImageProcessing files provider with
  | Sum.inl key => ⟨NodeId.prepareOcrTasks :: seqFrom (conditionalEdgeMap key), none⟩
  | Sum.inr sends =>
    let updates := sends.mapIdx
      (fun i s => extractSingleImageText s.filename s.ocr_provider (outcomes i))
    match mergeTaskUpdates ⟨[], []⟩ updates with
    | Except.error e =>
      ⟨NodeId.prepareOcrTasks :: sends.map (fun _ => NodeId.extractSingle), some e⟩
    | Except.ok _ =>
      ⟨NodeId.prepareOcrTasks ::
        (sends.map (fun _ => NodeId.extractSingle)) ++ seqFrom NodeId.processMedicationData,
       none⟩

/-- A record with every field absent. -/
def emptyRecord : MedRecord :=
  ⟨none, none, none, none, none, none, none, none, none, none, none, none, none, none⟩

/-- A registry row with every column absent. -/
def emptyDbRow : DbRow :=
  ⟨none, none, none, none, none, none, none, none, none, none, none, none⟩

/-- A candidate with every payload field absent and score `0`. -/
def emptyCandidate : Candidate :=
  ⟨none, none, none, none, none, none, none, none, none, none, none, 0⟩

/-- The 13-digit example code `7501287617019`. -/
def gtin13 : Str := ['7', '5', '0', '1', '2', '8', '7', '6', '1', '7', '0', '1', '9']

/-- The hyphenated example code `7-501287-617019`. -/
def gtin13Hyph : Str :=
  ['7', '-', '5', '0', '1', '2', '8', '7', '-', '6', '1', '7', '0', '1', '9']

/-- The too-short example code `123`. -/
def codeShort : Str := ['1', '2', '3']

/-- The non-numeric example code `AB12345678`. -/
def codeAlnum : Str := ['A', 'B', '1', '2', '3', '4', '5', '6', '7', '8']

/-- A record with an eligible barcode and an OCR-populated name. -/
def c1Rec : MedRecord := { emptyRecord with bar_code := some gtin13, medication_name := some ['X'] }

/-- A registry row whose `Name` column is populated with a different value. -/
def c1Row : DbRow := { emptyDbRow with name := some ['Y'] }

/-- A registry with a single entry for the example code. -/
def c1Registry : Str → Option DbRow := fun c => if c = gtin13 then some c1Row else none

/-- A record whose `common_denomination` is already populated. -/
def w1Rec : MedRecord := { emptyRecord with common_denomination := some ['C'] }

/-- The rational `0.9`. -/
def score90 : ℚ := ⟨9, 10, by decide, by decide⟩

/-- The rational `0.65`. -/
def score65 : ℚ := ⟨13, 20, by decide, by decide⟩

/-- A high-confidence candidate offering a different `common_denomination`. -/
def w1Cand : Candidate :=
  { emptyCandidate with common_denomination := some ['D'], similarity_score := score90 }

/-- The state the semantic node returns on `w1Rec` and `[w1Cand]`. -/
def w1Out : SemNodeResult :=
  { processed_medications := applySemanticEnrich w1Rec w1Cand
    semantic_results := [w1Cand]
    semantic_best_match := w1Cand
    enrichment_applied := true }

/-- A record with a populated name and empty enrichable fields. -/
def c4Rec : MedRecord := { emptyRecord with medication_name := some ['M'] }

/-- A candidate with score `0.65`, below the confidence threshold. -/
def c4Cand : Candidate :=
  { emptyCandidate with common_denomination := some ['Z'], similarity_score := score65 }

/-- The state the semantic node returns on `c4Rec` and `[c4Cand]`. -/
def c4Out : SemNodeResult :=
  { processed_medications := c4Rec
    semantic_results := [c4Cand]
    semantic_best_match := c4Cand
    enrichment_applied := false }

/-- A vector backend whose embedding call fails on every query. -/
def failingBackend : Str → Except VecErr (List Candidate) :=
  fun _ => Except.error VecErr.embeddingFailure

/-- A vector backend that succeeds with zero candidates on every query. -/
def emptyBackend : Str → Except VecErr (List Candidate) :=
  fun _ => Except.ok []

/-- A sample database exception. -/
def qerrX : QErr := ⟨['x']⟩

/-- An attempt trace in which every attempt fails. -/
def allFailAttempts : Nat → Except QErr (List DbRow) := fun _ => Except.error qerrX

/-- A registry row with a populated name. -/
def okRow : DbRow := { emptyDbRow with name := some ['N'] }

/-- An attempt trace in which every attempt returns one row. -/
def okAttempts : Nat → Except QErr (List DbRow) := fun _ => Except.ok [okRow]

/-- The provider name `mistral`. -/
def mistralProv : Str := ['m', 'i', 's', 't', 'r', 'a', 'l']

/-- The filename `img1`. -/
def img1 : Str := ['i', 'm', 'g', '1']

/-- The filename `img2`. -/
def img2 : Str := ['i', 'm', 'g', '2']

/-- The update contributed by a successful task on `img1`. -/
def u7a : TaskUpdate := extractSingleImageText img1 mistralProv (OcrOutcome.extracted ['t', '1'])

/-- The update contributed by a successful task on `img2`. -/
def u7b : TaskUpdate := extractSingleImageText img2 mistralProv (OcrOutcome.extracted ['t', '2'])

/-- The channel state after `_prepare_ocr_tasks_node`: empty accumulators. -/
def chan0 : ChannelState := ⟨[], []⟩

/-! Helper lemmas. -/

/-- Re-applying an overwrite-if-present update is absorbed by the first
application. -/
theorem ite_collapse {α : Type} (c : Prop) [Decidable c] (v x : α) :
    (if c then v else if c then v else x) = if c then v else x := by
  by_cases h : c <;> simp [h]

/-- Exact-match enrichment does not touch `bar_code`. -/
theorem applyDbEnrich_bar_code (r : MedRecord) (row : DbRow) :
    (applyDbEnrich r row).bar_code = r.bar_code := rfl

/-- Exact-match enrichment does not touch `lot_number`. -/
theorem applyDbEnrich_lot_number (r : MedRecord) (row : DbRow) :
    (applyDbEnrich r row).lot_number = r.lot_number := rfl

/-- Exact-match enrichment does not touch `expiration_date`. -/
theorem applyDbEnrich_expiration_date (r : MedRecord) (row : DbRow) :
    (applyDbEnrich r row).expiration_date = r.expiration_date := rfl

/-- Applying the exact-match field block twice with the same row is the
same as applying it once. -/
theorem applyDbEnrich_idem (r : MedRecord) (row : DbRow) :
    applyDbEnrich (applyDbEnrich r row) row = applyDbEnrich r row := by
  cases r
  simp only [applyDbEnrich]
  simp [ite_collapse]

/-- On an ineligible barcode, `check_gtin_in_database_v3` returns the
state unchanged. -/
theorem checkGtinV3_not_eligible (qf : Str → Option DbRow) (r : MedRecord)
    (he : gtinEligible r.bar_code = false) :
    checkGtinV3 qf r = ⟨r, none, false⟩ := by
  simp [checkGtinV3, he]

/-- On an eligible barcode and a registry miss, the state is unchanged. -/
theorem checkGtinV3_miss (qf : Str → Option DbRow) (r : MedRecord)
    (he : gtinEligible r.bar_code = true)
    (hq : qf (cleanCode (r.bar_code.getD [])) = none) :
    checkGtinV3 qf r = ⟨r, none, false⟩ := by
  simp [checkGtinV3, he, hq]

/-- On an eligible barcode and a registry hit, the record is enriched from
the row. -/
theorem checkGtinV3_hit (qf : Str → Option DbRow) (r : MedRecord) (row : DbRow)
    (he : gtinEligible r.bar_code = true)
    (hq : qf (cleanCode (r.bar_code.getD [])) = some row) :
    checkGtinV3 qf r = ⟨applyDbEnrich r row, some row, true⟩ := by
  simp [checkGtinV3, he, hq]

/-- Semantic enrichment never changes a field that is already truthy, and
never touches the fields outside its assignment block. -/
theorem applySemanticEnrich_frame (r : MedRecord) (best : Candidate) :
    (isFilled r.common_denomination = true →
      (applySemanticEnrich r best).common_denomination = r.common_denomination)
    ∧ (isFilled r.concentration = true →
      (applySemanticEnrich r best).concentration = r.concentration)
    ∧ (isFilled r.form = true → (applySemanticEnrich r best).form = r.form)
    ∧ (isFilled r.form_simple = true →
      (applySemanticEnrich r best).form_simple = r.form_simple)
    ∧ (isFilled r.brand_name = true →
      (applySemanticEnrich r best).brand_name = r.brand_name)
    ∧ (isFilled r.country = true → (applySemanticEnrich r best).country = r.country)
    ∧ (isFilled r.presentation = true →
      (applySemanticEnrich r best).presentation = r.presentation)
    ∧ (isFilled r.product_type = true →
      (applySemanticEnrich r best).product_type = r.product_type)
    ∧ (isFilled r.fractions = true → (applySemanticEnrich r best).fractions = r.fractions)
    ∧ (applySemanticEnrich r best).bar_code = r.bar_code
    ∧ (applySemanticEnrich r best).medication_name = r.medication_name
    ∧ (applySemanticEnrich r best).description = r.description
    ∧ (applySemanticEnrich r best).lot_number = r.lot_number
    ∧ (applySemanticEnrich r best).expiration_date = r.expiration_date := by
  refine ⟨?_, ?_, ?_, ?_, ?_, ?_, ?_, ?_, ?_, rfl, rfl, rfl, rfl, rfl⟩ <;>
    intro h <;> simp [applySemanticEnrich, h]

/-- Eligibility of a present code is exactly: the cleaned code is all
digits and has one of the standard lengths. -/
theorem gtinEligible_iff (s : Str) :
    gtinEligible (some s) = true ↔
      ((cleanCode s).all (fun c => c.isDigit) = true
        ∧ validGtinLength (cleanCode s).length = true) := by
  unfold gtinEligible pyIsDigit
  constructor
  · intro h
    simp only [Bool.and_eq_true] at h
    exact ⟨h.2.1.2, h.2.2⟩
  · intro h
    obtain ⟨hall, hlen⟩ := h
    have hcne : cleanCode s ≠ [] := by
      intro he
      rw [he] at hlen
      simp [validGtinLength] at hlen
    have hsne : s ≠ [] := by
      intro he
      subst he
      exact hcne rfl
    simp only [Bool.and_eq_true]
    refine ⟨?_, ⟨?_, hall⟩, hlen⟩
    · cases s with
      | nil => exact absurd rfl hsne
      | cons a l => rfl
    · cases hc : cleanCode s with
      | nil => exact absurd hc hcne
      | cons a l => rfl

/-- Unfolding one successful attempt of the retry loop. -/
theorem execLoop_ok (a : Nat → Except QErr (List DbRow)) (rc fuel : Nat)
    (rows : List DbRow) (h : a rc = Except.ok rows) :
    execLoop a rc (fuel + 1) = ⟨Except.ok rows, []⟩ := by
  simp [execLoop, h]

/-- Unfolding one failing attempt that is retried. -/
theorem execLoop_err_retry (a : Nat → Except QErr (List DbRow)) (rc fuel : Nat)
    (e : QErr) (h : a rc = Except.error e) (hlt : rc + 1 < MAX_RETRIES) :
    execLoop a rc (fuel + 1) =
      ⟨(execLoop a (rc + 1) fuel).result,
       RETRY_DELAY :: (execLoop a (rc + 1) fuel).sleeps⟩ := by
  simp [execLoop, h, hlt]

/-- Unfolding the last failing attempt: the exception is re-raised. -/
theorem execLoop_err_exhaust (a : Nat → Except QErr (List DbRow)) (rc fuel : Nat)
    (e : QErr) (h : a rc = Except.error e) (hge : ¬ rc + 1 < MAX_RETRIES) :
    execLoop a rc (fuel + 1) = ⟨Except.error e, []⟩ := by
  simp [execLoop, h, hge]

/-- The retry loop only consults attempts below `rc + fuel`. -/
theorem execLoop_congr (a b : Nat → Except QErr (List DbRow)) :
    ∀ (fuel rc : Nat), (∀ k, k < rc + fuel → a k = b k) →
      execLoop a rc fuel = execLoop b rc fuel := by
  intro fuel
  induction fuel with
  | zero => intro rc _; rfl
  | succ n ih =>
    intro rc h
    have hrc : a rc = b rc := h rc (by omega)
    simp only [execLoop, hrc]
    cases hb : b rc with
    | ok rows => rfl
    | error e =>
      by_cases hlt : rc + 1 < MAX_RETRIES
      · have hrec := ih (rc + 1) (fun k hk => h k (by omega))
        simp [hlt, hrec]
      · simp [hlt]

/-! Claim theorems. -/

/-- Claim C3: gate eligibility for the exact lookup is decided on the
cleaned product code and holds exactly when the cleaned code is all digits
of length 8, 12, 13 or 14; the codes `7501287617019` and
`7-501287-617019` are eligible, `123` and `AB12345678` are not, and an
absent code is never eligible. -/
theorem C3_gate_eligibility :
    (∀ s : Str, gtinEligible (some s) = true ↔
      ((cleanCode s).all (fun c => c.isDigit) = true
        ∧ validGtinLength (cleanCode s).length = true))
    ∧ gtinEligible (some gtin13) = true
    ∧ gtinEligible (some gtin13Hyph) = true
    ∧ gtinEligible (some codeShort) = false
    ∧ gtinEligible (some codeAlnum) = false
    ∧ gtinEligible none = false :=
  ⟨gtinEligible_iff, by decide, by decide, by decide, by decide, rfl⟩

/-- Claim C5 (code bug): when the embedding service or vector index fails,
or yields zero candidates, the vector service itself absorbs the failure
into an empty list, but the workflow node then indexes the empty candidate
list and aborts with an uncaught index error instead of returning the
unenriched record. -/
theorem C5_semantic_stage_aborts :
    vectorServiceSearch (Except.error VecErr.embeddingFailure) = []
    ∧ vectorServiceSearch (Except.error VecErr.indexFailure) = []
    ∧ semanticStage emptyRecord failingBackend = Except.error SemErr.indexError
    ∧ semanticStage emptyRecord emptyBackend = Except.error SemErr.indexError
    ∧ searchMedicationsSemanticNode c4Rec [] = Except.error SemErr.indexError :=
  ⟨rfl, rfl, rfl, rfl, rfl⟩

/-- Claim C7 (code bug): each parallel task contributes its text, filename
and provider as three singleton lists, but the state schema declares a
concatenation reducer only for `extracted_texts`; `file_names` is a
last-value channel that rejects the two writes of a two-image superstep,
and `ocr_provider_used` has no channel at all, so the per-item association
is not preserved — while a single-task superstep merges fine. -/
theorem C7_merge_loses_association :
    u7a = ⟨[['t', '1']], [img1], [mistralProv]⟩
    ∧ u7b = ⟨[['t', '2']], [img2], [mistralProv]⟩
    ∧ mergeTaskUpdates chan0 [u7a, u7b] = Except.error MergeErr.invalidUpdateFileNames
    ∧ mergeTaskUpdates chan0 [u7a] = Except.ok ⟨[['t', '1']], [img1]⟩ :=
  ⟨rfl, rfl, rfl, rfl⟩

/-- Claim C9: the exact-match enrichment step leaves `lot_number` and
`expiration_date` exactly as extracted from the image, for every record,
registry and registry row, populated registry columns included. -/
theorem C9_lot_expiration_frame :
    ∀ (qf : Str → Option DbRow) (r : MedRecord),
      (checkGtinV3 qf r).processed_medications.lot_number = r.lot_number
      ∧ (checkGtinV3 qf r).processed_medications.expiration_date = r.expiration_date := by
  intro qf r
  by_cases he : gtinEligible r.bar_code = true
  · cases hq : qf (cleanCode (r.bar_code.getD [])) with
    | some row =>
      rw [checkGtinV3_hit qf r row he hq]
      exact ⟨applyDbEnrich_lot_number r row, applyDbEnrich_expiration_date r row⟩
    | none =>
      rw [checkGtinV3_miss qf r he hq]
      exact ⟨rfl, rfl⟩
  · rw [checkGtinV3_not_eligible qf r (by simpa using he)]
    exact ⟨rfl, rfl⟩

/-- Claim C10: `query_gtin` is total at its interface — an internal error
of the query execution is absorbed into `None`, an empty result set yields
`None`, and otherwise the first row is returned. -/
theorem C10_query_gtin_total :
    (∀ (attempts : Nat → Except QErr (List DbRow)) (e : QErr),
      (executeQuery attempts).result = Except.error e → queryGtin attempts = none)
    ∧ (∀ attempts : Nat → Except QErr (List DbRow),
      (executeQuery attempts).result = Except.ok [] → queryGtin attempts = none)
    ∧ (∀ (attempts : Nat → Except QErr (List DbRow)) (row : DbRow) (rest : List DbRow),
      (executeQuery attempts).result = Except.ok (row :: rest) →
        queryGtin attempts = some row) := by
  refine ⟨?_, ?_, ?_⟩
  · intro attempts e h
    simp [queryGtin, h]
  · intro attempts h
    simp [queryGtin, h]
  · intro attempts row rest h
    simp [queryGtin, h]

/-- Witness for C10 at a concrete attempt trace. -/
theorem C10_query_gtin_total_witness :
    (executeQuery okAttempts).result = Except.ok [okRow]
    ∧ queryGtin okAttempts = some okRow :=
  ⟨by decide, C10_query_gtin_total.2.2 okAttempts okRow [] (by decide)⟩

/-- Claim C1 as stated is false: the exact-match enricher overwrites a
populated record field with the registry value.  Concretely, a record with
`medication_name` already populated has a different name after the step. -/
theorem C1_overwrite_counterexample :
    isFilled c1Rec.medication_name = true
    ∧ (checkGtinV3 c1Registry c1Rec).processed_medications.medication_name = some ['Y']
    ∧ c1Rec.medication_name = some ['X']
    ∧ (checkGtinV3 c1Registry c1Rec).processed_medications.medication_name
        ≠ c1Rec.medication_name := by
  decide

/-- Claim C1 amended: the semantic-match enricher never overwrites a
populated field (and never touches fields outside its block); the
exact-match enricher instead, on a registry hit, applies the overwriting
field block — any field whose registry value is non-empty is set to the
registry value regardless of the prior record value. -/
theorem C1_amended_enrichment_overwrite_policy :
    (∀ (r : MedRecord) (results : List Candidate) (out : SemNodeResult),
      searchMedicationsSemanticNode r results = Except.ok out →
        ((isFilled r.common_denomination = true →
          out.processed_medications.common_denomination = r.common_denomination)
        ∧ (isFilled r.concentration = true →
          out.processed_medications.concentration = r.concentration)
        ∧ (isFilled r.form = true → out.processed_medications.form = r.form)
        ∧ (isFilled r.form_simple = true →
          out.processed_medications.form_simple = r.form_simple)
        ∧ (isFilled r.brand_name = true →
          out.processed_medications.brand_name = r.brand_name)
        ∧ (isFilled r.country = true → out.processed_medications.country = r.country)
        ∧ (isFilled r.presentation = true →
          out.processed_medications.presentation = r.presentation)
        ∧ (isFilled r.product_type = true →
          out.processed_medications.product_type = r.product_type)
        ∧ (isFilled r.fractions = true →
          out.processed_medications.fractions = r.fractions)
        ∧ out.processed_medications.medication_name = r.medication_name
        ∧ out.processed_medications.bar_code = r.bar_code
        ∧ out.processed_medications.lot_number = r.lot_number
        ∧ out.processed_medications.expiration_date = r.expiration_date))
    ∧ (∀ (qf : Str → Option DbRow) (r : MedRecord) (row : DbRow),
      (checkGtinV3 qf r).database_info = some row →
        (checkGtinV3 qf r).processed_medications = applyDbEnrich r row)
    ∧ (∀ (r : MedRecord) (row : DbRow), isFilled row.name = true →
        (applyDbEnrich r row).medication_name = row.name) := by
  refine ⟨?_, ?_, ?_⟩
  · intro r results out h
    cases results with
    | nil => exact absurd h (by simp [searchMedicationsSemanticNode])
    | cons best rest =>
      simp only [searchMedicationsSemanticNode] at h
      injection h with h
      subst h
      by_cases hc : CONFIDENCE_THRESHOLD < best.similarity_score
      · have hf := applySemanticEnrich_frame r best
        simp only [hc, if_pos]
        exact ⟨hf.1, hf.2.1, hf.2.2.1, hf.2.2.2.1, hf.2.2.2.2.1, hf.2.2.2.2.2.1,
          hf.2.2.2.2.2.2.1, hf.2.2.2.2.2.2.2.1, hf.2.2.2.2.2.2.2.2.1,
          hf.2.2.2.2.2.2.2.2.2.2.1, hf.2.2.2.2.2.2.2.2.2.1,
          hf.2.2.2.2.2.2.2.2.2.2.2.2.1, hf.2.2.2.2.2.2.2.2.2.2.2.2.2⟩
      · simp [hc]
  · intro qf r row h
    by_cases he : gtinEligible r.bar_code = true
    · cases hq : qf (cleanCode (r.bar_code.getD [])) with
      | some row2 =>
        rw [checkGtinV3_hit qf r row2 he hq] at h ⊢
        cases h
        rfl
      | none =>
        rw [checkGtinV3_miss qf r he hq] at h
        cases h
    · rw [checkGtinV3_not_eligible qf r (by simpa using he)] at h
      cases h
  · intro r row h
    simp [applyDbEnrich, h]

/-- Witness for the amended C1 at concrete inputs: a populated
`common_denomination` survives a high-confidence semantic enrichment. -/
theorem C1_amended_enrichment_overwrite_policy_witness :
    isFilled w1Rec.common_denomination = true
    ∧ w1Out.processed_medications.common_denomination = w1Rec.common_denomination :=
  ⟨by decide,
    (C1_amended_enrichment_overwrite_policy.1 w1Rec [w1Cand] w1Out (by decide)).1 (by decide)⟩

/-- Claim C2 as stated is false: a zero-image batch is not routed to a
terminal state — the router returns the `process_directly` key, whose
conditional-edge target is the structuring node `process_medication_data`,
which therefore appears in the traversal (as does the enrichment node). -/
theorem C2_zero_images_counterexample :
    distributeImageProcessing [] mistralProv = Sum.inl RouteKey.process_directly
    ∧ conditionalEdgeMap RouteKey.process_directly = NodeId.processMedicationData
    ∧ NodeId.processMedicationData ∈
        (runBatch [] mistralProv (fun _ => OcrOutcome.providerUnavailable)).trace
    ∧ NodeId.checkGtin ∈
        (runBatch [] mistralProv (fun _ => OcrOutcome.providerUnavailable)).trace := by
  refine ⟨rfl, rfl, ?_, ?_⟩ <;> decide

/-- Claim C2 amended: there is no terminal no-input-data path at all.  A
zero-image batch is routed directly to the structuring node, then
enrichment, then END; a one-image batch reaches structuring whatever its
extraction outcome, because a failing task returns an error-text update
instead of raising; the router maps no key to a terminal node; and a batch
of two or more images never reaches the claimed terminal error state
either — it aborts at the fan-in channel merge (the C7 defect), before
structuring. -/
theorem C2_amended_no_terminal_error_path :
    (∀ (p : Str) (o : Nat → OcrOutcome), runBatch [] p o =
      ⟨[NodeId.prepareOcrTasks, NodeId.processMedicationData, NodeId.checkGtin, NodeId.endN],
       none⟩)
    ∧ (∀ (f p : Str) (o : Nat → OcrOutcome),
      NodeId.processMedicationData ∈ (runBatch [f] p o).trace
      ∧ NodeId.checkGtin ∈ (runBatch [f] p o).trace
      ∧ (runBatch [f] p o).aborted = none)
    ∧ (∀ key : RouteKey, conditionalEdgeMap key ≠ NodeId.endN)
    ∧ (∀ fname provider msg : Str,
      extractSingleImageText fname provider (OcrOutcome.exceptionDuring msg)
        = ⟨[procErrText fname msg], [fname], [provider]⟩
      ∧ extractSingleImageText fname provider OcrOutcome.providerUnavailable
        = ⟨[provErrText provider], [fname], [errorWord]⟩)
    ∧ (∀ (f1 f2 : Str) (fs : List Str) (p : Str) (o : Nat → OcrOutcome),
      (runBatch (f1 :: f2 :: fs) p o).aborted = some MergeErr.invalidUpdateFileNames
      ∧ NodeId.processMedicationData ∉ (runBatch (f1 :: f2 :: fs) p o).trace) := by
  refine ⟨fun p o => rfl, ?_, ?_, fun fname provider msg => ⟨rfl, rfl⟩, ?_⟩
  · intro f p o
    refine ⟨?_, ?_, ?_⟩ <;>
      simp [runBatch, distributeImageProcessing, mergeTaskUpdates, seqFrom]
  · intro key
    cases key <;> decide
  · intro f1 f2 fs p o
    constructor
    · simp [runBatch, distributeImageProcessing, mergeTaskUpdates]
    · simp [runBatch, distributeImageProcessing, mergeTaskUpdates]

/-- Claim C4: the semantic node applies candidate fields exactly when the
best score exceeds the 0.7 threshold, sets `enrichment_applied`
accordingly, returns the record unchanged at or below the threshold, and
always carries the full candidate list in the returned state. -/
theorem C4_confidence_threshold :
    ∀ (r : MedRecord) (best : Candidate) (rest : List Candidate) (out : SemNodeResult),
      searchMedicationsSemanticNode r (best :: rest) = Except.ok out →
        ((out.enrichment_applied = true ↔ CONFIDENCE_THRESHOLD < best.similarity_score)
        ∧ out.semantic_results = best :: rest
        ∧ (best.similarity_score ≤ CONFIDENCE_THRESHOLD → out.processed_medications = r)
        ∧ (CONFIDENCE_THRESHOLD < best.similarity_score →
            out.processed_medications = applySemanticEnrich r best)) := by
  intro r best rest out h
  simp only [searchMedicationsSemanticNode] at h
  injection h with h
  subst h
  refine ⟨by simp [decide_eq_true_eq], rfl, ?_, ?_⟩
  · intro hle
    have hnc : ¬ CONFIDENCE_THRESHOLD < best.similarity_score := not_lt.mpr hle
    simp [hnc]
  · intro hlt
    simp [hlt]

/-- Witness for C4 at a concrete 0.65-score candidate: the record comes
back unchanged while the candidate list is still reported. -/
theorem C4_confidence_threshold_witness :
    c4Cand.similarity_score ≤ CONFIDENCE_THRESHOLD
    ∧ c4Out.processed_medications = c4Rec
    ∧ c4Out.semantic_results = [c4Cand] := by
  have h := C4_confidence_threshold c4Rec c4Cand [] c4Out (by decide)
  exact ⟨by decide, h.2.2.1 (by decide), h.2.1⟩

/-- Claim C6: `execute_query` retries a fixed bounded number of attempts
(`MAX_RETRIES = 3`) with a fixed `RETRY_DELAY` sleep between attempts,
consults no attempt beyond the bound, and after exhausting the retries the
failure reaches `query_gtin` as a value (`None`), not an uncaught
exception. -/
theorem C6_retry_policy :
    (∀ (attempts : Nat → Except QErr (List DbRow)) (e0 e1 e2 : QErr),
      attempts 0 = Except.error e0 → attempts 1 = Except.error e1 →
      attempts 2 = Except.error e2 →
        executeQuery attempts = ⟨Except.error e2, [RETRY_DELAY, RETRY_DELAY]⟩
        ∧ queryGtin attempts = none)
    ∧ (∀ a b : Nat → Except QErr (List DbRow),
      (∀ k, k < MAX_RETRIES → a k = b k) → executeQuery a = executeQuery b) := by
  constructor
  · intro attempts e0 e1 e2 h0 h1 h2
    have hq : executeQuery attempts = ⟨Except.error e2, [RETRY_DELAY, RETRY_DELAY]⟩ := by
      show execLoop attempts 0 (2 + 1) = _
      rw [execLoop_err_retry attempts 0 (1 + 1) e0 h0 (by decide)]
      rw [execLoop_err_retry attempts 1 (0 + 1) e1 h1 (by decide)]
      rw [execLoop_err_exhaust attempts 2 0 e2 h2 (by decide)]
    refine ⟨hq, ?_⟩
    simp [queryGtin, hq]
  · intro a b h
    show execLoop a 0 MAX_RETRIES = execLoop b 0 MAX_RETRIES
    exact execLoop_congr a b MAX_RETRIES 0 (fun k hk => h k (by simpa using hk))

/-- Witness for C6 on an attempt trace in which every attempt fails. -/
theorem C6_retry_policy_witness :
    executeQuery allFailAttempts = ⟨Except.error qerrX, [RETRY_DELAY, RETRY_DELAY]⟩
    ∧ queryGtin allFailAttempts = none :=
  C6_retry_policy.1 allFailAttempts qerrX qerrX qerrX rfl rfl rfl

/-- Claim C8: exact-match enrichment is idempotent for a fixed registry —
running `check_gtin_in_database_v3` on its own output, against the same
registry, changes no field of the record. -/
theorem C8_exact_enrichment_idempotent :
    ∀ (qf : Str → Option DbRow) (r : MedRecord),
      (checkGtinV3 qf ((checkGtinV3 qf r).processed_medications)).processed_medications
        = (checkGtinV3 qf r).processed_medications := by
  intro qf r
  by_cases he : gtinEligible r.bar_code = true
  · cases hq : qf (cleanCode (r.bar_code.getD [])) with
    | some row =>
      rw [checkGtinV3_hit qf r row he hq]
      have hbar : (applyDbEnrich r row).bar_code = r.bar_code := applyDbEnrich_bar_code r row
      have he2 : gtinEligible (applyDbEnrich r row).bar_code = true := by rw [hbar]; exact he
      have hq2 : qf (cleanCode ((applyDbEnrich r row).bar_code.getD [])) = some row := by
        rw [hbar]; exact hq
      rw [checkGtinV3_hit qf (applyDbEnrich r row) row he2 hq2]
      exact applyDbEnrich_idem r row
    | none =>
      rw [checkGtinV3_miss qf r he hq]
      rw [checkGtinV3_miss qf r he hq]
  · rw [checkGtinV3_not_eligible qf r (by simpa using he)]
    rw [checkGtinV3_not_eligible qf r (by simpa using he)]

end MedExtract






